import Mathlib

/-!
Shallow embedding of the token-lifecycle core of netatmo.js (the `netatmo`
constructor, `authenticate`, `authenticate_refresh`, `handleRequestError`
and the gating logic of the endpoint wrappers, represented by
`getStationsData`).  The module-level mutable variables of the source
(`username`, `password`, `client_id`, `client_secret`, `scope`,
`access_token`, `expires_in`) together with the registered
event-emitter listeners and the pending `setTimeout` timers form the
state `NetatmoState`.  Network callbacks are modelled as explicit state
transition functions taking the transport outcome as input.
-/

namespace Netatmo

/-- JS truthiness of an optional string: `undefined` and the empty string
are falsy, every other string is truthy.  Used for every `if (!x)` test the
source performs on string-valued fields. -/
def truthy : Option String → Bool
  | none => false
  | some s => !(s == "")

/-- Default OAuth scope from netatmo.js line 98, used when `args.scope` is
falsy. -/
def defaultScope : String :=
  "read_station read_thermostat write_thermostat read_camera read_homecoach"

/-- The constant BASE_URL from netatmo.js line 6. -/
def baseUrl : String := "https://api.netatmo.com"

/-- Result of the format call producing the token endpoint URL
(netatmo.js lines 109 and 158). -/
def tokenUrl : String := baseUrl ++ "/oauth2/token"

/-- One emission on the EventEmitter: the channel (event name) and the
message text of the emitted Error (empty for plain events such as
`authenticated`). -/
structure Emitted where
  channel : String
  text : String
  deriving DecidableEq

/-- Validation error emitted at netatmo.js lines 64-92.  The source
message wraps the field name in single quotation marks; the quotation
marks are elided here, the field name is kept verbatim. -/
def cfgError (field : String) : Emitted :=
  ⟨"error", "Authenticate " ++ field ++ " not set."⟩

/-- The `authenticated` event emitted at netatmo.js line 129; this is the
ready signal of the spec. -/
def authenticatedEvent : Emitted := ⟨"authenticated", ""⟩

/-- An HTTP response as seen by the request callbacks: the status code and
the content-type header (absent when the server sent none). -/
structure HttpResp where
  statusCode : Nat
  contentType : Option String
  deriving DecidableEq

/-- Shape of the raw body as consumed by the error path of
`handleRequestError` (netatmo.js lines 40-41) when the content type is
JSON: an object `error.message`, an object with a string `error`, JSON
without an `error` field (in which case reading `.message` of
`undefined` throws), or a body that is not valid JSON at all (in which
case `JSON.parse` itself throws). -/
inductive ErrEnvelope where
  | errObjMsg (m : String)
  | errStr (s : String)
  | noErrorField
  | unparseable
  deriving DecidableEq

/-- Evaluation of `errorMessage.error.message || errorMessage.error`
(netatmo.js line 41), followed by string conversion inside the Error
message.  An empty `message` field is falsy, so the fallback is the error
object itself, which stringifies as `[object Object]`.  A missing `error`
field makes the member access throw, modelled as `none`. -/
def envelopeMessage : ErrEnvelope → Option String
  | .errObjMsg m => some (if m == "" then "[object Object]" else m)
  | .errStr s => some s
  | .noErrorField => none
  | .unparseable => none

/-- Characters removed by the trim step of the content-type test. -/
def isSpaceChar (c : Char) : Bool :=
  c == ' ' || c == '\t' || c == '\n' || c == '\r'

/-- Removal of leading whitespace from a character list. -/
def dropLeadSpace : List Char → List Char
  | [] => []
  | c :: cs => if isSpaceChar c then dropLeadSpace cs else c :: cs

/-- Removal of leading and trailing whitespace from a character list. -/
def trimChars (l : List Char) : List Char :=
  dropLeadSpace (dropLeadSpace l.reverse).reverse

/-- Test whether the second character list starts with the first. -/
def leadsWith : List Char → List Char → Bool
  | [], _ => true
  | _ :: _, [] => false
  | a :: as, b :: bs => a == b && leadsWith as bs

/-- Contiguous containment of the needle in the haystack. -/
def containsSeq (needle : List Char) : List Char → Bool
  | [] => leadsWith needle []
  | c :: cs => leadsWith needle (c :: cs) || containsSeq needle cs

/-- The test `headers["content-type"].trim().toLowerCase().indexOf("application/json") !== -1`
from netatmo.js line 39: substring containment after trim and
lower-casing (lower-casing commutes with trimming whitespace). -/
def contentTypeIsJson (ct : String) : Bool :=
  containsSeq "application/json".data (trimChars (ct.data.map Char.toLower))

/-- The `errorMessage` computation of `handleRequestError`
(netatmo.js lines 38-47).  `none` models an uncaught TypeError: a truthy
body with an undefined response or a missing content-type header, or a
JSON body without an `error` field. -/
def requestErrorMessage (response : Option HttpResp) (body : Option ErrEnvelope) :
    Option String :=
  match body with
  | some env =>
    match response with
    | none => none
    | some r =>
      match r.contentType with
      | none => none
      | some ct =>
        if contentTypeIsJson ct then envelopeMessage env
        else some ("Status code" ++ toString r.statusCode)
  | none =>
    match response with
    | some r => some ("Status code" ++ toString r.statusCode)
    | none => some "No response"

/-- `handleRequestError` (netatmo.js lines 37-55): builds
`Error(message + ": " + errorMessage)` and emits it on the `error`
channel when `critical` is truthy, on the `warning` channel otherwise.
The `err` parameter of the source is never read and is omitted. -/
def handleRequestError (response : Option HttpResp) (body : Option ErrEnvelope)
    (message : String) (critical : Bool) : Option Emitted :=
  (requestErrorMessage response body).map
    (fun em => ⟨if critical then "error" else "warning", message ++ ": " ++ em⟩)

/-- Fields of a parsed token-endpoint JSON body that the source reads
(netatmo.js lines 120-126 and 169-174); each is `none` when the JSON
object lacks the key. -/
structure TokenBody where
  access_token : Option String
  expires_in : Option Nat
  refresh_token : Option String
  deriving DecidableEq

/-- Raw response body of a token exchange before `JSON.parse`: empty or
undefined, a JSON object read through `TokenBody`, a JSON error
envelope, or a truthy body that is not valid JSON (such as an HTML
error page), on which `JSON.parse` throws. -/
inductive RawBody where
  | empty
  | tokenJson (b : TokenBody)
  | errJson (e : ErrEnvelope)
  | invalid
  deriving DecidableEq

/-- View of the raw body taken by the success path `JSON.parse(body)`
followed by field reads.  An empty or non-JSON body makes `JSON.parse`
throw (`none`); an error envelope parses but yields `undefined` for all
three token fields. -/
def RawBody.parseToken : RawBody → Option TokenBody
  | .empty => none
  | .tokenJson b => some b
  | .errJson _ => some ⟨none, none, none⟩
  | .invalid => none

/-- View of the raw body taken by `handleRequestError`: a falsy body is
`none`, token-shaped JSON has no `error` field, an envelope is itself,
and a truthy non-JSON body is unparseable (so the JSON branch of the
error path throws on it, while the non-JSON branch never parses it). -/
def RawBody.envelope : RawBody → Option ErrEnvelope
  | .empty => none
  | .tokenJson _ => some .noErrorField
  | .errJson e => some e
  | .invalid => some .unparseable

/-- A pending `setTimeout(this.authenticate_refresh.bind(this), d, rt)`
(netatmo.js lines 126 and 174): the delay in milliseconds and the
`refresh_token` argument the timer will pass to the refresh flow. -/
structure TimerRec where
  delayMs : Nat
  refresh_token : Option String
  deriving DecidableEq

/-- Options object of `getStationsData` (netatmo.js lines 208-215). -/
structure SdOptions where
  device_id : Option String
  get_favorites : Option Bool
  deriving DecidableEq

/-- Original arguments of one `getStationsData(options, callback)`
invocation; `hasCallback` records whether a callback was passed. -/
structure SdArgs where
  options : Option SdOptions
  hasCallback : Bool
  deriving DecidableEq

/-- The mutable state of the module: the module-level variables of
netatmo.js lines 8-14 (`expires_in` holds milliseconds, being assigned
`body.expires_in * 1000`), the listeners registered on the
`authenticated` event by deferred API calls, and the pending refresh
timers. -/
structure NetatmoState where
  username : Option String
  password : Option String
  client_id : Option String
  client_secret : Option String
  scope : Option String
  access_token : Option String
  expires_in : Option Nat
  listeners : List SdArgs
  timers : List TimerRec
  deriving DecidableEq

/-- State at module load: every variable undefined, no listeners, no
timers. -/
def stInit : NetatmoState := ⟨none, none, none, none, none, none, none, [], []⟩

/-- The non-blocking read of the current token (the spec calls it
`currentToken()`): the module variable `access_token`. -/
def currentToken (st : NetatmoState) : Option String := st.access_token

/-- An HTTP request issued by the library: URL, method and the
form-encoded fields in insertion order.  A `none` value models a JS
`undefined` passed through to the form. -/
structure HttpReq where
  url : String
  method : String
  form : List (String × Option String)
  deriving DecidableEq

/-- The `args` object accepted by `authenticate` (netatmo.js line 63). -/
structure AuthArgs where
  access_token : Option String
  client_id : Option String
  client_secret : Option String
  username : Option String
  password : Option String
  scope : Option String
  deriving DecidableEq

/-- Synchronous phase of `authenticate` (netatmo.js lines 63-114): the
falsy-args check, the bearer-token early return (line 69-72, which
assigns `access_token` and returns without emitting anything and without
any request), the fail-fast credential validation chain, the assignment
of the module variables, and the construction of the password-grant
request.  Result: updated state, events emitted synchronously, and the
request handed to `request(...)` (absent when no network call is made). -/
def authenticateSync (args : Option AuthArgs) (st : NetatmoState) :
    NetatmoState × List Emitted × Option HttpReq :=
  match args with
  | none => (st, [cfgError "args"], none)
  | some a =>
    if truthy a.access_token then
      ({ st with access_token := a.access_token }, [], none)
    else if !(truthy a.client_id) then (st, [cfgError "client_id"], none)
    else if !(truthy a.client_secret) then (st, [cfgError "client_secret"], none)
    else if !(truthy a.username) then (st, [cfgError "username"], none)
    else if !(truthy a.password) then (st, [cfgError "password"], none)
    else
      let sc := if truthy a.scope then a.scope.getD "" else defaultScope
      ({ st with username := a.username, password := a.password,
                 client_id := a.client_id, client_secret := a.client_secret,
                 scope := some sc },
       [],
       some { url := tokenUrl, method := "POST",
              form := [("client_id", a.client_id), ("client_secret", a.client_secret),
                       ("username", a.username), ("password", a.password),
                       ("scope", some sc), ("grant_type", some "password")] })

/-- Outcome of one token-endpoint exchange as delivered to the request
callback: a transport failure (`err` truthy, no response, no body) or a
response with status code, headers and raw body. -/
inductive XOutcome where
  | transportFail
  | got (resp : HttpResp) (body : RawBody)
  deriving DecidableEq

/-- A JS number that may be NaN; `undefined * 1000` is NaN. -/
inductive JsNum where
  | nan
  | num (v : Nat)
  deriving DecidableEq

/-- The expression `body.expires_in * 1000` of netatmo.js line 134:
NaN when `expires_in` is absent, otherwise the value in milliseconds. -/
def jsTimes1000 : Option Nat → JsNum
  | none => JsNum.nan
  | some e => JsNum.num (e * 1000)

/-- The object handed to the completion callback of `authenticate`
(netatmo.js lines 132-135). -/
structure CbResult where
  access_token : Option String
  expires_in : JsNum
  deriving DecidableEq

/-- Response callback of `authenticate` (netatmo.js lines 115-139).
On failure it calls `handleRequestError` with `critical = true`; an
uncaught throw inside it emits nothing.  On status 200 it parses the
body (a parse failure kills the handler: no state change, no events),
assigns `access_token`, and when `body.expires_in` is truthy (present
and nonzero) assigns `expires_in` in milliseconds and arms a one-shot
refresh timer with delay `body.expires_in * 1000` milliseconds carrying
`body.refresh_token`; it then emits `authenticated` and invokes the
callback when one was supplied. -/
def authenticateRespond (hasCb : Bool) (oc : XOutcome) (st : NetatmoState) :
    NetatmoState × List Emitted × Option CbResult :=
  match oc with
  | .transportFail =>
    (st, (handleRequestError none none "Authenticate error" true).toList, none)
  | .got resp raw =>
    if resp.statusCode != 200 then
      (st, (handleRequestError (some resp) raw.envelope "Authenticate error" true).toList,
       none)
    else
      match raw.parseToken with
      | none => (st, [], none)
      | some b =>
        let st1 := { st with access_token := b.access_token }
        let st2 :=
          match b.expires_in with
          | some e =>
            if e = 0 then st1
            else { st1 with expires_in := some (e * 1000),
                            timers := st1.timers ++ [⟨e * 1000, b.refresh_token⟩] }
          | none => st1
        (st2, [authenticatedEvent],
         if hasCb then some ⟨b.access_token, jsTimes1000 b.expires_in⟩ else none)

/-- Request built by `authenticate_refresh` (netatmo.js lines 151-163)
from the timer argument and the saved module credentials. -/
def refreshRequest (rt : Option String) (st : NetatmoState) : HttpReq :=
  { url := tokenUrl, method := "POST",
    form := [("grant_type", some "refresh_token"), ("refresh_token", rt),
             ("client_id", st.client_id), ("client_secret", st.client_secret)] }

/-- Response callback of `authenticate_refresh` (netatmo.js lines
164-178).  On failure it calls `handleRequestError` with the `critical`
argument omitted, hence falsy: the error goes to the `warning` channel
and nothing else happens (no retry, no state change).  On status 200 it
assigns `access_token` and, when `body.expires_in` is truthy, arms a new
one-shot timer; the module variable `expires_in` is not updated here and
no event is emitted. -/
def refreshRespond (oc : XOutcome) (st : NetatmoState) : NetatmoState × List Emitted :=
  match oc with
  | .transportFail =>
    (st, (handleRequestError none none "Authenticate refresh error" false).toList)
  | .got resp raw =>
    if resp.statusCode != 200 then
      (st, (handleRequestError (some resp) raw.envelope "Authenticate refresh error" false).toList)
    else
      match raw.parseToken with
      | none => (st, [])
      | some b =>
        let st1 := { st with access_token := b.access_token }
        let st2 :=
          match b.expires_in with
          | some e =>
            if e = 0 then st1
            else { st1 with timers := st1.timers ++ [⟨e * 1000, b.refresh_token⟩] }
          | none => st1
        (st2, [])

/-- Request built by the body of `getStationsData` once the token gate is
passed (netatmo.js lines 197-220), including the argument shuffle that
treats a sole `options` argument as the callback. -/
def sdRequest (a : SdArgs) (tok : Option String) : HttpReq :=
  let opts := if a.options.isSome && !a.hasCallback then none else a.options
  let f0 : List (String × Option String) := [("access_token", tok)]
  let f1 :=
    match opts with
    | none => f0
    | some o =>
      (f0 ++ (if truthy o.device_id then [("device_id", o.device_id)] else []))
        ++ (if o.get_favorites == some true then [("get_favorites", some "true")] else [])
  { url := baseUrl ++ "/api/getstationsdata", method := "POST", form := f1 }

/-- A completed firing of `getStationsData`: the original arguments of
the invocation together with the request it issued. -/
structure SdFired where
  args : SdArgs
  req : HttpReq
  deriving DecidableEq

/-- `getStationsData` up to the issuing of its request (netatmo.js lines
189-220).  When `access_token` is falsy the call does not fire: it
registers a persistent listener on the `authenticated` event (`this.on`,
not `this.once`) that will re-invoke the method with the same original
arguments.  Otherwise it fires immediately. -/
def getStationsData (a : SdArgs) (st : NetatmoState) : NetatmoState × List SdFired :=
  if !(truthy st.access_token) then
    ({ st with listeners := st.listeners ++ [a] }, [])
  else
    (st, [⟨a, sdRequest a st.access_token⟩])

/-- One listener invocation during delivery of the `authenticated`
event: the listener re-runs `getStationsData` with its captured
arguments against the current state. -/
def sdStep (p : NetatmoState × List SdFired) (a : SdArgs) : NetatmoState × List SdFired :=
  ((getStationsData a p.1).1, p.2 ++ (getStationsData a p.1).2)

/-- Delivery of one `authenticated` emission to the registered
listeners.  The event emitter iterates over a snapshot of the listener
array; listeners registered with `on` stay registered afterwards. -/
def dispatchAuthenticated (st : NetatmoState) : NetatmoState × List SdFired :=
  st.listeners.foldl sdStep (st, [])

/-- One externally triggered operation of the lifecycle: a call of
`authenticate` (synchronous phase), delivery of a grant response,
delivery of a refresh response, an API call, or the delivery of an
`authenticated` emission to the listeners. -/
inductive Inp where
  | authCall (hasCb : Bool) (args : Option AuthArgs)
  | authResp (hasCb : Bool) (oc : XOutcome)
  | refreshResp (oc : XOutcome)
  | sdCall (a : SdArgs)
  | authDispatch
  deriving DecidableEq

/-- State transition of the lifecycle under one operation. -/
def step (st : NetatmoState) : Inp → NetatmoState
  | .authCall _ args => (authenticateSync args st).1
  | .authResp hasCb oc => (authenticateRespond hasCb oc st).1
  | .refreshResp oc => (refreshRespond oc st).1
  | .sdCall a => (getStationsData a st).1
  | .authDispatch => (dispatchAuthenticated st).1

/-- The fail-fast validation chain of `authenticate`: the first
credential field in source order that is falsy.  Mirrors netatmo.js
lines 74-92. -/
def firstNonTruthy (a : AuthArgs) : Option String :=
  if !(truthy a.client_id) then some "client_id"
  else if !(truthy a.client_secret) then some "client_secret"
  else if !(truthy a.username) then some "username"
  else if !(truthy a.password) then some "password"
  else none

/-- Outcome classification used by the failure claims: transport failure
or non-200 status, exactly the test `err || response.statusCode != 200`
of the source. -/
def failureOutcome : XOutcome → Bool
  | .transportFail => true
  | .got resp _ => resp.statusCode != 200

/-- Arguments of the deferred `getStationsData` call used in the C2
scenario. -/
def c2args : SdArgs := ⟨some ⟨some "dev1", none⟩, true⟩

/-- Scenario for C2: a `getStationsData` call arrives before any token is
available (it defers and registers a listener); a first grant exchange
succeeds with token tok1 and its `authenticated` emission is delivered to
the listeners; later `authenticate` is called again, a second grant
exchange succeeds with token tok2, and its `authenticated` emission is
delivered again.  The list collects every firing of the API call. -/
def c2trace : List SdFired :=
  let p1 := getStationsData c2args stInit
  let q1 := authenticateRespond false
    (XOutcome.got ⟨200, some "application/json"⟩
      (RawBody.tokenJson ⟨some "tok1", none, none⟩)) p1.1
  let d1 := dispatchAuthenticated q1.1
  let q2 := authenticateRespond false
    (XOutcome.got ⟨200, some "application/json"⟩
      (RawBody.tokenJson ⟨some "tok2", none, none⟩)) d1.1
  let d2 := dispatchAuthenticated q2.1
  p1.2 ++ d1.2 ++ d2.2

/-- Every event produced by `handleRequestError` with a falsy `critical`
argument is on the `warning` channel. -/
theorem hreNonCriticalChannel (response : Option HttpResp) (body : Option ErrEnvelope)
    (m : String) (e : Emitted)
    (he : e ∈ (handleRequestError response body m false).toList) : e.channel = "warning" := by
  unfold handleRequestError at he
  cases hr : requestErrorMessage response body with
  | none => simp [hr] at he
  | some s =>
    simp [hr] at he
    rw [he]

/-- Claim C4: for every password-grant credentials input, validation is a
fail-fast chain in the fixed order client_id, client_secret, username,
password; the first falsy field is reported as one distinct configuration
error naming that field, no later field influences the outcome, no state
is changed, and no network request is issued. -/
theorem c4_validation (st : NetatmoState) (a : AuthArgs) (f : String)
    (hb : truthy a.access_token = false) (hf : firstNonTruthy a = some f) :
    authenticateSync (some a) st = (st, [cfgError f], none) := by
  unfold firstNonTruthy at hf
  unfold authenticateSync
  by_cases h1 : truthy a.client_id <;>
    by_cases h2 : truthy a.client_secret <;>
      by_cases h3 : truthy a.username <;>
        by_cases h4 : truthy a.password <;>
          simp [hb, h1, h2, h3, h4] at hf ⊢ <;> simp [← hf]

/-- Witness for C4: credentials with client_id present but client_secret
missing are rejected with the client_secret configuration error and no
request. -/
theorem c4_witness :
    truthy (AuthArgs.mk none (some "id") none none (some "pw") none).access_token = false
    ∧ firstNonTruthy (AuthArgs.mk none (some "id") none none (some "pw") none)
        = some "client_secret"
    ∧ authenticateSync (some (AuthArgs.mk none (some "id") none none (some "pw") none)) stInit
        = (stInit, [cfgError "client_secret"], none) :=
  ⟨by decide, by decide,
   c4_validation stInit (AuthArgs.mk none (some "id") none none (some "pw") none)
     "client_secret" (by decide) (by decide)⟩

/-- Claim C6 (amended part): for every args object with a truthy
access_token, `authenticate` stores the supplied token and returns
immediately: no network request, and also no event at all is emitted
(the `authenticated` ready signal is skipped by this early return). -/
theorem c6_amended (st : NetatmoState) (a : AuthArgs) (h : truthy a.access_token = true) :
    authenticateSync (some a) st = ({ st with access_token := a.access_token }, [], none)
    ∧ currentToken (authenticateSync (some a) st).1 = a.access_token := by
  constructor <;> simp [authenticateSync, currentToken, h]

/-- Counterexample for C6 as stated: the bearer-token path of
`authenticate` (netatmo.js lines 69-72) emits no ready event at all —
the emitted-event list is empty, not a one-element list — although the
token is stored and no request is made. -/
theorem c6_cex :
    (authenticateSync (some (AuthArgs.mk (some "T") none none none none none)) stInit).2.1 = []
    ∧ currentToken
        (authenticateSync (some (AuthArgs.mk (some "T") none none none none none)) stInit).1
        = some "T"
    ∧ (authenticateSync (some (AuthArgs.mk (some "T") none none none none none)) stInit).2.2
        = none
    ∧ ([] : List Emitted) ≠ [authenticatedEvent] := by
  refine ⟨rfl, rfl, rfl, by decide⟩

/-- Witness for C6 (amended): a concrete bearer-token initialization. -/
theorem c6_witness :
    truthy (AuthArgs.mk (some "B") none none none none none).access_token = true
    ∧ (authenticateSync (some (AuthArgs.mk (some "B") none none none none none)) stInit
        = ({ stInit with access_token := some "B" }, [], none)
      ∧ currentToken
          (authenticateSync (some (AuthArgs.mk (some "B") none none none none none)) stInit).1
          = some "B") :=
  ⟨by decide, c6_amended stInit (AuthArgs.mk (some "B") none none none none none) (by decide)⟩

/-- Claim C9: the initial grant request is a form-encoded POST to
/oauth2/token with exactly the fields client_id, client_secret, username,
password, scope, grant_type=password, where scope is the supplied scope
or the documented default; the refresh request carries exactly
grant_type=refresh_token, refresh_token, client_id, client_secret. -/
theorem c9_forms (st : NetatmoState) (a : AuthArgs) (rt : Option String)
    (hb : truthy a.access_token = false)
    (h1 : truthy a.client_id = true) (h2 : truthy a.client_secret = true)
    (h3 : truthy a.username = true) (h4 : truthy a.password = true) :
    tokenUrl = "https://api.netatmo.com/oauth2/token"
    ∧ (authenticateSync (some a) st).2.2 = some
        { url := tokenUrl, method := "POST",
          form := [("client_id", a.client_id), ("client_secret", a.client_secret),
                   ("username", a.username), ("password", a.password),
                   ("scope", some (if truthy a.scope then a.scope.getD "" else
                      "read_station read_thermostat write_thermostat read_camera read_homecoach")),
                   ("grant_type", some "password")] }
    ∧ refreshRequest rt st =
        { url := tokenUrl, method := "POST",
          form := [("grant_type", some "refresh_token"), ("refresh_token", rt),
                   ("client_id", st.client_id), ("client_secret", st.client_secret)] } := by
  refine ⟨rfl, ?_, rfl⟩
  simp [authenticateSync, hb, h1, h2, h3, h4, defaultScope]

/-- Witness for C9: concrete credentials with no scope supplied produce
the documented default scope in the form. -/
theorem c9_witness :
    truthy (AuthArgs.mk none (some "ci") (some "cs") (some "us") (some "pw") none).access_token
      = false
    ∧ (tokenUrl = "https://api.netatmo.com/oauth2/token"
      ∧ (authenticateSync
            (some (AuthArgs.mk none (some "ci") (some "cs") (some "us") (some "pw") none))
            stInit).2.2 = some
          { url := tokenUrl, method := "POST",
            form := [("client_id", some "ci"), ("client_secret", some "cs"),
                     ("username", some "us"), ("password", some "pw"),
                     ("scope", some (if truthy (none : Option String) then
                        (none : Option String).getD "" else
                        "read_station read_thermostat write_thermostat read_camera read_homecoach")),
                     ("grant_type", some "password")] }
      ∧ refreshRequest (some "rt") stInit =
          { url := tokenUrl, method := "POST",
            form := [("grant_type", some "refresh_token"), ("refresh_token", some "rt"),
                     ("client_id", stInit.client_id), ("client_secret", stInit.client_secret)] }) :=
  ⟨by decide,
   c9_forms stInit (AuthArgs.mk none (some "ci") (some "cs") (some "us") (some "pw") none)
     (some "rt") (by decide) (by decide) (by decide) (by decide) (by decide)⟩

/-- Claim C10: when `authenticate` has a completion callback and the
grant succeeds, the callback object carries `access_token` and an
`expires_in` equal to the response value multiplied by 1000
(milliseconds); when the response omits `expires_in` the field is NaN
(`undefined * 1000`), not absent. -/
theorem c10_callback (st : NetatmoState) (resp : HttpResp) (b : TokenBody)
    (h200 : resp.statusCode = 200) :
    (authenticateRespond true (XOutcome.got resp (RawBody.tokenJson b)) st).2.2
      = some ⟨b.access_token, jsTimes1000 b.expires_in⟩
    ∧ (∀ e, b.expires_in = some e → jsTimes1000 b.expires_in = JsNum.num (e * 1000))
    ∧ (b.expires_in = none → jsTimes1000 b.expires_in = JsNum.nan) := by
  refine ⟨?_, ?_, ?_⟩
  · simp [authenticateRespond, h200, RawBody.parseToken]
  · intro e he; rw [he]; rfl
  · intro he; rw [he]; rfl

/-- Witness for C10: a concrete 200 grant response with expires_in 7
yields a callback object with expires_in 7000 milliseconds. -/
theorem c10_witness :
    (HttpResp.mk 200 (some "application/json")).statusCode = 200
    ∧ ((authenticateRespond true
          (XOutcome.got (HttpResp.mk 200 (some "application/json"))
            (RawBody.tokenJson (TokenBody.mk (some "A") (some 7) none))) stInit).2.2
        = some ⟨(TokenBody.mk (some "A") (some 7) none).access_token,
                jsTimes1000 (TokenBody.mk (some "A") (some 7) none).expires_in⟩
      ∧ (∀ e, (TokenBody.mk (some "A") (some 7) none).expires_in = some e →
          jsTimes1000 (TokenBody.mk (some "A") (some 7) none).expires_in = JsNum.num (e * 1000))
      ∧ ((TokenBody.mk (some "A") (some 7) none).expires_in = none →
          jsTimes1000 (TokenBody.mk (some "A") (some 7) none).expires_in = JsNum.nan)) :=
  ⟨rfl, c10_callback stInit (HttpResp.mk 200 (some "application/json"))
     (TokenBody.mk (some "A") (some 7) none) rfl⟩

/-- Claim C1 (amended): on a 200 grant response whose JSON body contains
access_token, the token is stored (currentToken returns it), the
`authenticated` ready signal is emitted exactly once — also when
expires_in is absent — and a one-shot refresh timer of expires_in
seconds (delay `expires_in * 1000` milliseconds) carrying the response
refresh_token is armed exactly when the response includes a nonzero
expires_in; a zero or absent expires_in arms no timer. -/
theorem c1_amended (st : NetatmoState) (hasCb : Bool) (resp : HttpResp) (b : TokenBody)
    (t : String) (h200 : resp.statusCode = 200) (htok : b.access_token = some t) :
    currentToken (authenticateRespond hasCb (XOutcome.got resp (RawBody.tokenJson b)) st).1
      = some t
    ∧ (authenticateRespond hasCb (XOutcome.got resp (RawBody.tokenJson b)) st).2.1
      = [authenticatedEvent]
    ∧ (∀ e, b.expires_in = some e → e ≠ 0 →
        (authenticateRespond hasCb (XOutcome.got resp (RawBody.tokenJson b)) st).1.timers
          = st.timers ++ [⟨e * 1000, b.refresh_token⟩])
    ∧ ((b.expires_in = none ∨ b.expires_in = some 0) →
        (authenticateRespond hasCb (XOutcome.got resp (RawBody.tokenJson b)) st).1.timers
          = st.timers) := by
  cases he : b.expires_in with
  | none =>
    refine ⟨?_, ?_, ?_, ?_⟩ <;>
      simp [authenticateRespond, currentToken, h200, htok, he, RawBody.parseToken]
  | some e =>
    by_cases h0 : e = 0
    · subst h0
      refine ⟨?_, ?_, ?_, ?_⟩ <;>
        simp [authenticateRespond, currentToken, h200, htok, he, RawBody.parseToken]
    · refine ⟨?_, ?_, ?_, ?_⟩ <;>
        simp [authenticateRespond, currentToken, h200, htok, he, h0, RawBody.parseToken]

/-- Counterexample for C1 as stated: a 200 grant response that includes
expires_in with value 0 stores the token and fires the ready signal but
arms no timer, because the source guards the setTimeout with the JS
truthiness of `body.expires_in`, not with its presence. -/
theorem c1_cex :
    (TokenBody.mk (some "A") (some 0) (some "r")).expires_in ≠ none
    ∧ (authenticateRespond false
        (XOutcome.got (HttpResp.mk 200 (some "application/json"))
          (RawBody.tokenJson (TokenBody.mk (some "A") (some 0) (some "r")))) stInit).1.timers
      = []
    ∧ currentToken (authenticateRespond false
        (XOutcome.got (HttpResp.mk 200 (some "application/json"))
          (RawBody.tokenJson (TokenBody.mk (some "A") (some 0) (some "r")))) stInit).1
      = some "A" := by
  refine ⟨by decide, rfl, rfl⟩

/-- Witness for C1 (amended): a concrete 200 grant response with
expires_in 3 stores the token, emits the ready signal once and arms a
3000-millisecond timer. -/
theorem c1_witness :
    (HttpResp.mk 200 (some "application/json")).statusCode = 200
    ∧ (TokenBody.mk (some "A") (some 3) (some "r")).access_token = some "A"
    ∧ currentToken (authenticateRespond false
        (XOutcome.got (HttpResp.mk 200 (some "application/json"))
          (RawBody.tokenJson (TokenBody.mk (some "A") (some 3) (some "r")))) stInit).1
      = some "A"
    ∧ (authenticateRespond false
        (XOutcome.got (HttpResp.mk 200 (some "application/json"))
          (RawBody.tokenJson (TokenBody.mk (some "A") (some 3) (some "r")))) stInit).2.1
      = [authenticatedEvent]
    ∧ (authenticateRespond false
        (XOutcome.got (HttpResp.mk 200 (some "application/json"))
          (RawBody.tokenJson (TokenBody.mk (some "A") (some 3) (some "r")))) stInit).1.timers
      = stInit.timers ++ [⟨3 * 1000, some "r"⟩] :=
  ⟨rfl, rfl,
   (c1_amended stInit false (HttpResp.mk 200 (some "application/json"))
      (TokenBody.mk (some "A") (some 3) (some "r")) "A" rfl rfl).1,
   (c1_amended stInit false (HttpResp.mk 200 (some "application/json"))
      (TokenBody.mk (some "A") (some 3) (some "r")) "A" rfl rfl).2.1,
   (c1_amended stInit false (HttpResp.mk 200 (some "application/json"))
      (TokenBody.mk (some "A") (some 3) (some "r")) "A" rfl rfl).2.2.1 3 rfl (by decide)⟩

/-- Claim C7 (amended): a refresh exchange that succeeds with a new
access_token replaces the stored token; the one-shot timer is re-armed
with the new interval (delay `expires_in * 1000` milliseconds, carrying
the new refresh_token, hence chaining) exactly when the response
contains a nonzero expires_in, and a success with absent or zero
expires_in arms no further timer; no event is emitted. -/
theorem c7_amended (st : NetatmoState) (resp : HttpResp) (b : TokenBody) (t : String)
    (h200 : resp.statusCode = 200) (htok : b.access_token = some t) :
    currentToken (refreshRespond (XOutcome.got resp (RawBody.tokenJson b)) st).1 = some t
    ∧ (refreshRespond (XOutcome.got resp (RawBody.tokenJson b)) st).2 = []
    ∧ (∀ e, b.expires_in = some e → e ≠ 0 →
        (refreshRespond (XOutcome.got resp (RawBody.tokenJson b)) st).1.timers
          = st.timers ++ [⟨e * 1000, b.refresh_token⟩])
    ∧ ((b.expires_in = none ∨ b.expires_in = some 0) →
        (refreshRespond (XOutcome.got resp (RawBody.tokenJson b)) st).1.timers
          = st.timers) := by
  cases he : b.expires_in with
  | none =>
    refine ⟨?_, ?_, ?_, ?_⟩ <;>
      simp [refreshRespond, currentToken, h200, htok, he, RawBody.parseToken]
  | some e =>
    by_cases h0 : e = 0
    · subst h0
      refine ⟨?_, ?_, ?_, ?_⟩ <;>
        simp [refreshRespond, currentToken, h200, htok, he, RawBody.parseToken]
    · refine ⟨?_, ?_, ?_, ?_⟩ <;>
        simp [refreshRespond, currentToken, h200, htok, he, h0, RawBody.parseToken]

/-- Counterexample for C7 as stated: a 200 refresh response containing a
new access_token and expires_in 0 replaces the token but re-arms no
timer, because the re-arm is guarded by JS truthiness of expires_in, not
by its presence. -/
theorem c7_cex :
    (TokenBody.mk (some "B") (some 0) (some "r2")).expires_in ≠ none
    ∧ (refreshRespond
        (XOutcome.got (HttpResp.mk 200 (some "application/json"))
          (RawBody.tokenJson (TokenBody.mk (some "B") (some 0) (some "r2")))) stInit).1.timers
      = []
    ∧ currentToken (refreshRespond
        (XOutcome.got (HttpResp.mk 200 (some "application/json"))
          (RawBody.tokenJson (TokenBody.mk (some "B") (some 0) (some "r2")))) stInit).1
      = some "B" := by
  refine ⟨by decide, rfl, rfl⟩

/-- Witness for C7 (amended): a concrete successful refresh with
expires_in 5 replaces the token and re-arms a 5000-millisecond timer
carrying the new refresh_token. -/
theorem c7_witness :
    (HttpResp.mk 200 (some "application/json")).statusCode = 200
    ∧ (TokenBody.mk (some "B") (some 5) (some "r2")).access_token = some "B"
    ∧ currentToken (refreshRespond
        (XOutcome.got (HttpResp.mk 200 (some "application/json"))
          (RawBody.tokenJson (TokenBody.mk (some "B") (some 5) (some "r2")))) stInit).1
      = some "B"
    ∧ (refreshRespond
        (XOutcome.got (HttpResp.mk 200 (some "application/json"))
          (RawBody.tokenJson (TokenBody.mk (some "B") (some 5) (some "r2")))) stInit).1.timers
      = stInit.timers ++ [⟨5 * 1000, some "r2"⟩] :=
  ⟨rfl, rfl,
   (c7_amended stInit (HttpResp.mk 200 (some "application/json"))
      (TokenBody.mk (some "B") (some 5) (some "r2")) "B" rfl rfl).1,
   (c7_amended stInit (HttpResp.mk 200 (some "application/json"))
      (TokenBody.mk (some "B") (some 5) (some "r2")) "B" rfl rfl).2.2.1 5 rfl (by decide)⟩

/-- Claim C3 (amended): a failed refresh exchange (transport failure or
non-200 status) leaves the whole state — in particular the previously
stored access_token and the timer list — unchanged and performs no
retry; exactly one AuthenticationError is emitted, on the `warning`
channel rather than the `error` channel, whenever the error-message
computation succeeds (a transport failure yields exactly the No-response
warning; a non-200 response yields exactly one warning carrying the
extracted message), and nothing at all is emitted when the error-message
computation throws. -/
theorem c3_amended (st : NetatmoState) (oc : XOutcome) (h : failureOutcome oc = true) :
    (refreshRespond oc st).1 = st
    ∧ currentToken (refreshRespond oc st).1 = currentToken st
    ∧ (∀ e ∈ (refreshRespond oc st).2, e.channel = "warning")
    ∧ (oc = XOutcome.transportFail →
        (refreshRespond oc st).2 = [⟨"warning", "Authenticate refresh error: No response"⟩])
    ∧ (∀ resp raw em, oc = XOutcome.got resp raw →
        requestErrorMessage (some resp) raw.envelope = some em →
        (refreshRespond oc st).2 = [⟨"warning", "Authenticate refresh error" ++ ": " ++ em⟩])
    ∧ (∀ resp raw, oc = XOutcome.got resp raw →
        requestErrorMessage (some resp) raw.envelope = none →
        (refreshRespond oc st).2 = []) := by
  cases oc with
  | transportFail =>
    refine ⟨rfl, rfl, ?_, fun _ => rfl, ?_, ?_⟩
    · intro e he
      exact hreNonCriticalChannel none none "Authenticate refresh error" e he
    · intro resp raw em hoc; cases hoc
    · intro resp raw hoc; cases hoc
  | got resp0 raw0 =>
    have hb : (resp0.statusCode != 200) = true := h
    have hr : refreshRespond (XOutcome.got resp0 raw0) st
        = (st, (handleRequestError (some resp0) raw0.envelope
            "Authenticate refresh error" false).toList) := by
      simp only [refreshRespond]
      rw [if_pos hb]
    refine ⟨by rw [hr], by rw [hr], ?_, ?_, ?_, ?_⟩
    · intro e he
      rw [hr] at he
      exact hreNonCriticalChannel (some resp0) raw0.envelope "Authenticate refresh error" e he
    · intro hoc; cases hoc
    · intro resp raw em hoc hm
      injection hoc with hoc1 hoc2
      subst hoc1; subst hoc2
      rw [hr]
      simp [handleRequestError, hm]
    · intro resp raw hoc hm
      injection hoc with hoc1 hoc2
      subst hoc1; subst hoc2
      rw [hr]
      simp [handleRequestError, hm]

/-- Counterexample for C3 as stated: a refresh transport failure emits
its single AuthenticationError on the `warning` channel, not on the
`error` channel claimed by the spec (the source omits the `critical`
argument at netatmo.js line 166); moreover a non-200 refresh response
with a truthy body but no content-type header emits nothing at all (the
error formatter throws at netatmo.js line 39 before any emit), so not
even one AuthenticationError is emitted there. -/
theorem c3_cex :
    refreshRespond XOutcome.transportFail stInit
      = (stInit, [⟨"warning", "Authenticate refresh error: No response"⟩])
    ∧ ("warning" : String) ≠ "error"
    ∧ refreshRespond
        (XOutcome.got (HttpResp.mk 500 none)
          (RawBody.tokenJson (TokenBody.mk none none none))) stInit
      = (stInit, []) := by
  refine ⟨rfl, by decide, rfl⟩

/-- Witness for C3 (amended): a concrete 403 refresh response with an
absent body leaves the state untouched and emits exactly one warning
carrying the status-code message. -/
theorem c3_witness :
    failureOutcome (XOutcome.got (HttpResp.mk 403 (some "text/html")) RawBody.empty) = true
    ∧ (refreshRespond (XOutcome.got (HttpResp.mk 403 (some "text/html")) RawBody.empty)
        stInit).1 = stInit
    ∧ (refreshRespond (XOutcome.got (HttpResp.mk 403 (some "text/html")) RawBody.empty)
        stInit).2
      = [⟨"warning", "Authenticate refresh error" ++ ": " ++ "Status code403"⟩] :=
  ⟨by decide,
   (c3_amended stInit (XOutcome.got (HttpResp.mk 403 (some "text/html")) RawBody.empty)
      (by decide)).1,
   (c3_amended stInit (XOutcome.got (HttpResp.mk 403 (some "text/html")) RawBody.empty)
      (by decide)).2.2.2.2.1 (HttpResp.mk 403 (some "text/html")) RawBody.empty
     "Status code403" rfl (by decide)⟩

/-- Claim C5 (amended): for a failing exchange (transport failure or
non-200 status) the emitted error message is extracted from the JSON
error envelope (error.message, or the error string) when a body is
present and the content type contains application/json; otherwise, when
a response exists — including every present body under a non-JSON
content type — it is the string `Status code` immediately followed by
the numeric status code (not the bare number); and it is `No response`
(capital N) when the transport produced none.  The channel is `error`
exactly when the call is critical.  A response whose content type is
not JSON but whose status is 200 is not reported at all: the success
path's JSON.parse throws, so no event and no callback result are
produced. -/
theorem c5_amended (r : HttpResp) (ct msg : String) (c : Bool)
    (hct : r.contentType = some ct) :
    (contentTypeIsJson ct = true →
        (∀ m, m ≠ "" →
            requestErrorMessage (some r) (some (ErrEnvelope.errObjMsg m)) = some m)
        ∧ (∀ s, requestErrorMessage (some r) (some (ErrEnvelope.errStr s)) = some s))
    ∧ (contentTypeIsJson ct = false → ∀ env,
        requestErrorMessage (some r) (some env)
          = some ("Status code" ++ toString r.statusCode))
    ∧ requestErrorMessage (some r) none = some ("Status code" ++ toString r.statusCode)
    ∧ requestErrorMessage none none = some "No response"
    ∧ handleRequestError (some r) none msg c
        = some ⟨if c then "error" else "warning",
                msg ++ ": " ++ ("Status code" ++ toString r.statusCode)⟩
    ∧ (∀ st hasCb, r.statusCode = 200 →
        authenticateRespond hasCb (XOutcome.got r RawBody.invalid) st = (st, [], none))
    ∧ (∀ st, r.statusCode = 200 →
        refreshRespond (XOutcome.got r RawBody.invalid) st = (st, [])) := by
  refine ⟨?_, ?_, ?_, rfl, ?_, ?_, ?_⟩
  · intro hj
    constructor
    · intro m hm
      simp [requestErrorMessage, envelopeMessage, hct, hj, hm]
    · intro s
      simp [requestErrorMessage, envelopeMessage, hct, hj]
  · intro hj env
    simp [requestErrorMessage, hct, hj]
  · simp [requestErrorMessage, hct]
  · simp [handleRequestError, requestErrorMessage, hct]
  · intro st hasCb h200
    simp [authenticateRespond, h200, RawBody.parseToken]
  · intro st h200
    simp [refreshRespond, h200, RawBody.parseToken]

/-- Counterexample for C5 as stated: with no response the extracted
message is the string `No response`, not the claimed `no response`; for
a non-JSON failing response it is `Status code` concatenated with the
code, not the bare numeric status code; and a 200 response whose
content type is not JSON — one of the outcome categories the claim
covers — is not reported at all: no AuthenticationError is emitted
(JSON.parse throws uncaught in the success path, netatmo.js line 120). -/
theorem c5_cex :
    requestErrorMessage none none = some "No response"
    ∧ requestErrorMessage (some (HttpResp.mk 404 (some "text/html"))) none
      = some "Status code404"
    ∧ ("No response" : String) ≠ "no response"
    ∧ ("Status code404" : String) ≠ "404"
    ∧ authenticateRespond false
        (XOutcome.got (HttpResp.mk 200 (some "text/html")) RawBody.invalid) stInit
      = (stInit, [], none) := by
  refine ⟨rfl, by decide, by decide, by decide, rfl⟩

/-- Witness for C5 (amended): concrete instances — a 400 JSON response
with each envelope shape, the no-response case, and a 200 non-JSON
response that reports nothing. -/
theorem c5_witness :
    (HttpResp.mk 400 (some "application/json")).contentType = some "application/json"
    ∧ requestErrorMessage (some (HttpResp.mk 400 (some "application/json")))
        (some (ErrEnvelope.errObjMsg "invalid_grant")) = some "invalid_grant"
    ∧ requestErrorMessage (some (HttpResp.mk 400 (some "application/json")))
        (some (ErrEnvelope.errStr "oops")) = some "oops"
    ∧ requestErrorMessage none none = some "No response"
    ∧ (∀ st hasCb, (HttpResp.mk 200 (some "text/plain")).statusCode = 200 →
        authenticateRespond hasCb
          (XOutcome.got (HttpResp.mk 200 (some "text/plain")) RawBody.invalid) st
          = (st, [], none)) :=
  ⟨rfl,
   ((c5_amended (HttpResp.mk 400 (some "application/json")) "application/json"
       "Authenticate error" true rfl).1 (by decide)).1 "invalid_grant" (by decide),
   ((c5_amended (HttpResp.mk 400 (some "application/json")) "application/json"
       "Authenticate error" true rfl).1 (by decide)).2 "oops",
   (c5_amended (HttpResp.mk 400 (some "application/json")) "application/json"
       "Authenticate error" true rfl).2.2.2.1,
   (c5_amended (HttpResp.mk 200 (some "text/plain")) "text/plain"
       "Authenticate error" true rfl).2.2.2.2.2.1⟩

/-- Neither branch of `getStationsData` changes the stored token. -/
theorem sdTokenKeep (a : SdArgs) (st : NetatmoState) :
    (getStationsData a st).1.access_token = st.access_token := by
  unfold getStationsData
  by_cases hc : truthy st.access_token <;> simp [hc]

/-- Delivering listeners never changes the stored token. -/
theorem foldTokenKeep (l : List SdArgs) (p : NetatmoState × List SdFired) :
    (l.foldl sdStep p).1.access_token = p.1.access_token := by
  induction l generalizing p with
  | nil => rfl
  | cons x xs ih =>
    rw [List.foldl_cons, ih]
    exact sdTokenKeep x p.1

/-- With a truthy token in place, delivering an `authenticated` emission
fires each listed listener once, in order, with its original arguments,
and leaves the state (in particular the listener list) unchanged. -/
theorem foldFireAll (l : List SdArgs) (st : NetatmoState) (acc : List SdFired)
    (h : truthy st.access_token = true) :
    l.foldl sdStep (st, acc)
      = (st, acc ++ l.map (fun a => ⟨a, sdRequest a st.access_token⟩)) := by
  induction l generalizing acc with
  | nil => simp
  | cons x xs ih =>
    rw [List.foldl_cons]
    have hx : sdStep (st, acc) x = (st, acc ++ [⟨x, sdRequest x st.access_token⟩]) := by
      simp [sdStep, getStationsData, h]
    rw [hx, ih]
    simp

/-- Claim C2 (amended): an API call made while the token is falsy does
not fire and is appended, with its original arguments, as a listener on
the `authenticated` event; one delivery of that event with a truthy
token in place fires every registered listener exactly once with its
original arguments — but the listeners stay registered (the source uses
`on`, not `once`), so every later `authenticated` emission fires each
deferred call again. -/
theorem c2_amended (st st2 : NetatmoState) (a : SdArgs)
    (h0 : truthy st.access_token = false) (h2 : truthy st2.access_token = true) :
    getStationsData a st = ({ st with listeners := st.listeners ++ [a] }, [])
    ∧ (dispatchAuthenticated st2).1 = st2
    ∧ (dispatchAuthenticated st2).2.map SdFired.args = st2.listeners := by
  refine ⟨by simp [getStationsData, h0], ?_, ?_⟩
  · unfold dispatchAuthenticated
    rw [foldFireAll st2.listeners st2 [] h2]
  · unfold dispatchAuthenticated
    rw [foldFireAll st2.listeners st2 [] h2]
    have hcomp : (SdFired.args ∘ fun a => (⟨a, sdRequest a st2.access_token⟩ : SdFired))
        = fun a => a := rfl
    simp [List.map_map, hcomp]

/-- Counterexample for C2 as stated: in the concrete scenario `c2trace`
the deferred call fires once after the first grant exchange and again
after a second `authenticated` emission — two firings of the same
original arguments, not exactly one. -/
theorem c2_cex :
    c2trace.map SdFired.args = [c2args, c2args]
    ∧ (c2trace.map SdFired.args).length ≠ 1 := by
  refine ⟨rfl, by decide⟩

/-- Witness for C2 (amended): a state without token defers a concrete
call, and a state with the token tok1 and one registered listener fires
it exactly once while keeping it registered. -/
theorem c2_witness :
    truthy stInit.access_token = false
    ∧ truthy (NetatmoState.mk none none none none none (some "tok1") none [c2args] []).access_token
        = true
    ∧ (getStationsData c2args stInit
        = ({ stInit with listeners := stInit.listeners ++ [c2args] }, [])
      ∧ (dispatchAuthenticated
          (NetatmoState.mk none none none none none (some "tok1") none [c2args] [])).1
        = NetatmoState.mk none none none none none (some "tok1") none [c2args] []
      ∧ (dispatchAuthenticated
          (NetatmoState.mk none none none none none (some "tok1") none [c2args] [])).2.map
            SdFired.args
        = (NetatmoState.mk none none none none none (some "tok1") none [c2args] []).listeners) :=
  ⟨by decide, by decide,
   c2_amended stInit (NetatmoState.mk none none none none none (some "tok1") none [c2args] [])
     c2args (by decide) (by decide)⟩

/-- The bearer-token path of `authenticate` sets the stored token to the
supplied one. -/
theorem authBearerSet (st : NetatmoState) (hasCb : Bool) (a : AuthArgs)
    (hb : truthy a.access_token = true) :
    (step st (Inp.authCall hasCb (some a))).access_token = a.access_token := by
  simp [step, authenticateSync, hb]

/-- A 200 grant response with a parseable body overwrites the stored
token with the body's access_token field. -/
theorem authRespSet (st : NetatmoState) (hasCb : Bool) (resp : HttpResp) (raw : RawBody)
    (b : TokenBody) (h200 : resp.statusCode = 200) (hp : raw.parseToken = some b) :
    (step st (Inp.authResp hasCb (XOutcome.got resp raw))).access_token = b.access_token := by
  cases he : b.expires_in with
  | none => simp [step, authenticateRespond, h200, hp, he]
  | some e =>
    by_cases h0 : e = 0 <;> simp [step, authenticateRespond, h200, hp, he, h0]

/-- A 200 refresh response with a parseable body overwrites the stored
token with the body's access_token field. -/
theorem refreshRespSet (st : NetatmoState) (resp : HttpResp) (raw : RawBody)
    (b : TokenBody) (h200 : resp.statusCode = 200) (hp : raw.parseToken = some b) :
    (step st (Inp.refreshResp (XOutcome.got resp raw))).access_token = b.access_token := by
  cases he : b.expires_in with
  | none => simp [step, refreshRespond, h200, hp, he]
  | some e =>
    by_cases h0 : e = 0 <;> simp [step, refreshRespond, h200, hp, he, h0]

/-- A failed grant exchange leaves the stored token unchanged. -/
theorem authRespFailKeep (st : NetatmoState) (hasCb : Bool) (oc : XOutcome)
    (h : failureOutcome oc = true) :
    (step st (Inp.authResp hasCb oc)).access_token = st.access_token := by
  cases oc with
  | transportFail => rfl
  | got resp raw =>
    have hb : (resp.statusCode != 200) = true := h
    simp only [step, authenticateRespond]
    rw [if_pos hb]

/-- A failed refresh exchange leaves the stored token unchanged. -/
theorem refreshRespFailKeep (st : NetatmoState) (oc : XOutcome)
    (h : failureOutcome oc = true) :
    (step st (Inp.refreshResp oc)).access_token = st.access_token := by
  cases oc with
  | transportFail => rfl
  | got resp raw =>
    have hb : (resp.statusCode != 200) = true := h
    simp only [step, refreshRespond]
    rw [if_pos hb]

/-- Claim C8 (amended): across every lifecycle operation the stored
access_token either stays unchanged, or the operation is a bearer-token
`authenticate` call (which sets it to the supplied token without any
exchange), or it is the delivery of a status-200 exchange response with
a parseable JSON body (which overwrites it with that body's
access_token field — clearing it when the 200 body lacks the field);
the second and third conjuncts pin those transitions positively, and
the fourth proves that every failed exchange preserves the token. -/
theorem c8_amended (st : NetatmoState) :
    (∀ i, (step st i).access_token = st.access_token
      ∨ (∃ hasCb a, i = Inp.authCall hasCb (some a) ∧ truthy a.access_token = true
          ∧ (step st i).access_token = a.access_token)
      ∨ (∃ resp raw b, resp.statusCode = 200 ∧ raw.parseToken = some b
          ∧ ((∃ hasCb, i = Inp.authResp hasCb (XOutcome.got resp raw))
              ∨ i = Inp.refreshResp (XOutcome.got resp raw))
          ∧ (step st i).access_token = b.access_token))
    ∧ (∀ hasCb a, truthy a.access_token = true →
        (step st (Inp.authCall hasCb (some a))).access_token = a.access_token)
    ∧ (∀ hasCb resp raw b, resp.statusCode = 200 → raw.parseToken = some b →
        (step st (Inp.authResp hasCb (XOutcome.got resp raw))).access_token = b.access_token
        ∧ (step st (Inp.refreshResp (XOutcome.got resp raw))).access_token = b.access_token)
    ∧ (∀ hasCb oc, failureOutcome oc = true →
        (step st (Inp.authResp hasCb oc)).access_token = st.access_token
        ∧ (step st (Inp.refreshResp oc)).access_token = st.access_token) := by
  refine ⟨?_, ?_, ?_, ?_⟩
  · intro i
    cases i with
    | authCall hasCb args =>
      cases args with
      | none => exact Or.inl rfl
      | some a =>
        by_cases hb : truthy a.access_token
        · exact Or.inr (Or.inl ⟨hasCb, a, rfl, hb, authBearerSet st hasCb a hb⟩)
        · refine Or.inl ?_
          simp only [step, authenticateSync]
          by_cases h1 : truthy a.client_id <;>
            by_cases h2 : truthy a.client_secret <;>
              by_cases h3 : truthy a.username <;>
                by_cases h4 : truthy a.password <;>
                  simp [hb, h1, h2, h3, h4]
    | authResp hasCb oc =>
      cases oc with
      | transportFail => exact Or.inl rfl
      | got resp raw =>
        by_cases h200 : resp.statusCode = 200
        · cases hp : raw.parseToken with
          | none =>
            refine Or.inl ?_
            simp [step, authenticateRespond, h200, hp]
          | some b =>
            exact Or.inr (Or.inr ⟨resp, raw, b, h200, hp, Or.inl ⟨hasCb, rfl⟩,
              authRespSet st hasCb resp raw b h200 hp⟩)
        · exact Or.inl (authRespFailKeep st hasCb (XOutcome.got resp raw)
            (bne_iff_ne.mpr h200))
    | refreshResp oc =>
      cases oc with
      | transportFail => exact Or.inl rfl
      | got resp raw =>
        by_cases h200 : resp.statusCode = 200
        · cases hp : raw.parseToken with
          | none =>
            refine Or.inl ?_
            simp [step, refreshRespond, h200, hp]
          | some b =>
            exact Or.inr (Or.inr ⟨resp, raw, b, h200, hp, Or.inr rfl,
              refreshRespSet st resp raw b h200 hp⟩)
        · exact Or.inl (refreshRespFailKeep st (XOutcome.got resp raw)
            (bne_iff_ne.mpr h200))
    | sdCall a => exact Or.inl (sdTokenKeep a st)
    | authDispatch => exact Or.inl (foldTokenKeep st.listeners (st, []))
  · exact fun hasCb a hb => authBearerSet st hasCb a hb
  · exact fun hasCb resp raw b h200 hp =>
      ⟨authRespSet st hasCb resp raw b h200 hp, refreshRespSet st resp raw b h200 hp⟩
  · exact fun hasCb oc h =>
      ⟨authRespFailKeep st hasCb oc h, refreshRespFailKeep st oc h⟩

/-- Counterexample for C8 as stated: first, starting from the pristine
state and applying only the synchronous bearer-token `authenticate` step
— which issues no grant request at all — the token is already present,
so access_token is not absent until the first successful grant exchange
completes; second, with a token in place, delivering a status-200
refresh response whose JSON body lacks access_token (here an error
envelope served with status 200) assigns `undefined` at netatmo.js line
171 and thereby clears the stored token, so an operation other than a
replacement with a new token does clear it. -/
theorem c8_cex :
    stInit.access_token = none
    ∧ (authenticateSync (some (AuthArgs.mk (some "T") none none none none none)) stInit).2.2
      = none
    ∧ (step stInit
        (Inp.authCall false (some (AuthArgs.mk (some "T") none none none none none)))).access_token
      = some "T"
    ∧ ({ stInit with access_token := some "T" } : NetatmoState).access_token = some "T"
    ∧ (step { stInit with access_token := some "T" }
        (Inp.refreshResp (XOutcome.got (HttpResp.mk 200 (some "application/json"))
          (RawBody.errJson (ErrEnvelope.errStr "oops"))))).access_token = none := by
  refine ⟨rfl, rfl, rfl, rfl, rfl⟩

/-- Witness for C8 (amended): concrete instances of the pinned
transitions — a failed refresh preserves the token of a concrete state,
and a token-less 200 body overwrites it with its absent access_token
field. -/
theorem c8_witness :
    failureOutcome XOutcome.transportFail = true
    ∧ (step stInit (Inp.refreshResp XOutcome.transportFail)).access_token
      = stInit.access_token
    ∧ (HttpResp.mk 200 (some "application/json")).statusCode = 200
    ∧ (RawBody.errJson (ErrEnvelope.errStr "oops")).parseToken
      = some (TokenBody.mk none none none)
    ∧ (step stInit (Inp.refreshResp (XOutcome.got (HttpResp.mk 200 (some "application/json"))
        (RawBody.errJson (ErrEnvelope.errStr "oops"))))).access_token
      = (TokenBody.mk none none none).access_token :=
  ⟨rfl,
   ((c8_amended stInit).2.2.2 false XOutcome.transportFail rfl).2,
   rfl, rfl,
   ((c8_amended stInit).2.2.1 false (HttpResp.mk 200 (some "application/json"))
      (RawBody.errJson (ErrEnvelope.errStr "oops")) (TokenBody.mk none none none)
      rfl rfl).2⟩

end Netatmo
